import Mathlib

/-!
Shallow embedding of the screen-wake-lock library (src/lib.rs, src/linux.rs,
src/macos.rs, src/windows.rs).

The external world (D-Bus buses and services, IOKit, Win32 power APIs) is
modelled by an environment record saying which connections can be opened and
what each remote call would return.  Every operation returns, besides its
result, the list of remote calls it issued, so that ordering, first-match and
idempotence properties are observable.
-/

/-! ## Error model (src/lib.rs, enum Error) -/

inductive Error where
  | os (msg : String)
  | dbus (msg : String)
  | unsupported (msg : String)
deriving DecidableEq

/-- Modelled from the spec: the spec error taxonomy has exactly two failure
kinds, PlatformError and UnsupportedError (spec section 4.1 and 7). -/
inductive SpecErrorKind where
  | platformError
  | unsupportedError
deriving DecidableEq

/-- Modelled from the spec: classification of the concrete error type into the
two spec-level failure kinds.  Os and Dbus both mean the underlying OS or
service call failed, which the spec calls PlatformError. -/
def specErrorKindOf : Error → SpecErrorKind
  | .os _ => .platformError
  | .dbus _ => .platformError
  | .unsupported _ => .unsupportedError

/-! ## Options (src/lib.rs, struct LinuxOptions) -/

structure LinuxOptions where
  application_id : Option String
  reason : Option String
deriving DecidableEq

/-- Default impl in src/lib.rs: both fields None. -/
def LinuxOptions.default : LinuxOptions :=
  { application_id := none, reason := none }

/-! ## D-Bus call model -/

inductive BusKind where
  | session
  | system
deriving DecidableEq

inductive DBusValue where
  | str (s : String)
  | u32 (n : Nat)
  | strDict (entries : List (String × String))
deriving DecidableEq

structure MethodCall where
  bus : BusKind
  destination : String
  path : String
  interface : String
  member : String
  args : List DBusValue
deriving DecidableEq

/-! ## Linux backend (src/linux.rs) -/

def GNOME_INHIBIT_IDLE : Nat := 8
def PORTAL_INHIBIT_IDLE : Nat := 8

/-- The Inhibit call issued by try_gnome_session. -/
def gnomeInhibitCall (application_id reason : String) : MethodCall :=
  { bus := .session
    destination := "org.gnome.SessionManager"
    path := "/org/gnome/SessionManager"
    interface := "org.gnome.SessionManager"
    member := "Inhibit"
    args := [.str application_id, .u32 0, .str reason, .u32 GNOME_INHIBIT_IDLE] }

/-- The Inhibit call issued by try_fdo_screensaver. -/
def fdoScreenSaverInhibitCall (application_id reason : String) : MethodCall :=
  { bus := .session
    destination := "org.freedesktop.ScreenSaver"
    path := "/org/freedesktop/ScreenSaver"
    interface := "org.freedesktop.ScreenSaver"
    member := "Inhibit"
    args := [.str application_id, .str reason] }

/-- The Inhibit call issued by try_fdo_powermanagement. -/
def fdoPowerManagementInhibitCall (application_id reason : String) : MethodCall :=
  { bus := .session
    destination := "org.freedesktop.PowerManagement"
    path := "/org/freedesktop/PowerManagement/Inhibit"
    interface := "org.freedesktop.PowerManagement.Inhibit"
    member := "Inhibit"
    args := [.str application_id, .str reason] }

/-- The Inhibit call issued by try_xdg_portal (window identifier is the empty
string, flags is the idle constant, the reason travels in the option map). -/
def portalInhibitCall (reason : String) : MethodCall :=
  { bus := .session
    destination := "org.freedesktop.portal.Desktop"
    path := "/org/freedesktop/portal/desktop"
    interface := "org.freedesktop.portal.Inhibit"
    member := "Inhibit"
    args := [.str "", .u32 PORTAL_INHIBIT_IDLE, .strDict [("reason", reason)]] }

/-- The Inhibit call issued by try_logind, on the system bus. -/
def logindInhibitCall (application_id reason : String) : MethodCall :=
  { bus := .system
    destination := "org.freedesktop.login1"
    path := "/org/freedesktop/login1"
    interface := "org.freedesktop.login1.Manager"
    member := "Inhibit"
    args := [.str "idle", .str application_id, .str reason, .str "block"] }

/-- The Uninhibit call issued by release of the GnomeSession backend. -/
def gnomeUninhibitCall (cookie : Nat) : MethodCall :=
  { bus := .session
    destination := "org.gnome.SessionManager"
    path := "/org/gnome/SessionManager"
    interface := "org.gnome.SessionManager"
    member := "Uninhibit"
    args := [.u32 cookie] }

/-- The UnInhibit call issued by release of the FdoScreenSaver backend. -/
def fdoScreenSaverUninhibitCall (cookie : Nat) : MethodCall :=
  { bus := .session
    destination := "org.freedesktop.ScreenSaver"
    path := "/org/freedesktop/ScreenSaver"
    interface := "org.freedesktop.ScreenSaver"
    member := "UnInhibit"
    args := [.u32 cookie] }

/-- The UnInhibit call issued by release of the FdoPowerManagement backend. -/
def fdoPowerManagementUninhibitCall (cookie : Nat) : MethodCall :=
  { bus := .session
    destination := "org.freedesktop.PowerManagement"
    path := "/org/freedesktop/PowerManagement/Inhibit"
    interface := "org.freedesktop.PowerManagement.Inhibit"
    member := "UnInhibit"
    args := [.u32 cookie] }

/-- The Request.Close call issued by release of the XdgPortal backend,
addressed at the stored request path. -/
def portalCloseCall (handle : String) : MethodCall :=
  { bus := .session
    destination := "org.freedesktop.portal.Desktop"
    path := handle
    interface := "org.freedesktop.portal.Request"
    member := "Close"
    args := [] }

/-- Environment oracle for the Linux backend: whether each bus connection
opens, and what each inhibit call would return (none = the call fails). -/
structure LinuxEnv where
  sessionOk : Bool
  systemOk : Bool
  gnomeCookie : Option Nat
  screensaverCookie : Option Nat
  powerManagementCookie : Option Nat
  portalHandle : Option String
  logindFd : Option Nat
deriving DecidableEq

/-- enum Backend in src/linux.rs (the connection a variant stores is implied
by its bus kind; cookies, the portal request path and the logind fd are the
stored undo tokens). -/
inductive Backend where
  | gnomeSession (cookie : Nat)
  | fdoScreenSaver (cookie : Nat)
  | fdoPowerManagement (cookie : Nat)
  | xdgPortal (handle : String)
  | logind (fd : Nat)
deriving DecidableEq

def try_gnome_session (env : LinuxEnv) (application_id reason : String) :
    Option Nat × List MethodCall :=
  (env.gnomeCookie, [gnomeInhibitCall application_id reason])

def try_fdo_screensaver (env : LinuxEnv) (application_id reason : String) :
    Option Nat × List MethodCall :=
  (env.screensaverCookie, [fdoScreenSaverInhibitCall application_id reason])

def try_fdo_powermanagement (env : LinuxEnv) (application_id reason : String) :
    Option Nat × List MethodCall :=
  (env.powerManagementCookie, [fdoPowerManagementInhibitCall application_id reason])

def try_xdg_portal (env : LinuxEnv) (reason : String) :
    Option String × List MethodCall :=
  (env.portalHandle, [portalInhibitCall reason])

/-- try_logind first opens its own system-bus connection; if that fails no
call is issued at all. -/
def try_logind (env : LinuxEnv) (application_id reason : String) :
    Option Nat × List MethodCall :=
  if env.systemOk then (env.logindFd, [logindInhibitCall application_id reason])
  else (none, [])

/-- The four session-bus attempts of PlatformWakeLock::acquire, in source
order, each tried only when the previous one failed. -/
def acquireSessionMechanisms (env : LinuxEnv) (application_id reason : String) :
    Option Backend × List MethodCall :=
  match try_gnome_session env application_id reason with
  | (some cookie, t1) => (some (Backend.gnomeSession cookie), t1)
  | (none, t1) =>
    match try_fdo_screensaver env application_id reason with
    | (some cookie, t2) => (some (Backend.fdoScreenSaver cookie), t1 ++ t2)
    | (none, t2) =>
      match try_fdo_powermanagement env application_id reason with
      | (some cookie, t3) => (some (Backend.fdoPowerManagement cookie), t1 ++ t2 ++ t3)
      | (none, t3) =>
        match try_xdg_portal env reason with
        | (some handle, t4) => (some (Backend.xdgPortal handle), t1 ++ t2 ++ t3 ++ t4)
        | (none, t4) => (none, t1 ++ t2 ++ t3 ++ t4)

/-- PlatformWakeLock::acquire in src/linux.rs: session mechanisms first (only
if the session connection opened), then the logind fallback, else
Error::Unsupported. -/
def PlatformWakeLock.acquire (env : LinuxEnv) (application_id reason : String) :
    Except Error Backend × List MethodCall :=
  match (if env.sessionOk then acquireSessionMechanisms env application_id reason
         else (none, [])) with
  | (some backend, tr) => (Except.ok backend, tr)
  | (none, tr) =>
    match try_logind env application_id reason with
    | (some fd, tl) => (Except.ok (Backend.logind fd), tr ++ tl)
    | (none, tl) =>
      (Except.error (Error.unsupported "no suitable Linux inhibition backend found"),
       tr ++ tl)

/-- PlatformWakeLock::release in src/linux.rs.  proxyOk models whether the
local Proxy::new construction in the taken arm succeeds (its failure is mapped
to Error::Dbus and no remote call is issued).  The result of the un-inhibit
remote call itself is ignored by the source, so only its emission is recorded.
The Logind arm issues no remote call: dropping the fd is the release. -/
def PlatformWakeLock.release (proxyOk : Bool) :
    Backend → Except Error Unit × List MethodCall
  | .gnomeSession cookie =>
    if proxyOk then (Except.ok (), [gnomeUninhibitCall cookie])
    else (Except.error (Error.dbus "proxy creation failed"), [])
  | .fdoScreenSaver cookie =>
    if proxyOk then (Except.ok (), [fdoScreenSaverUninhibitCall cookie])
    else (Except.error (Error.dbus "proxy creation failed"), [])
  | .fdoPowerManagement cookie =>
    if proxyOk then (Except.ok (), [fdoPowerManagementUninhibitCall cookie])
    else (Except.error (Error.dbus "proxy creation failed"), [])
  | .xdgPortal handle =>
    if proxyOk then (Except.ok (), [portalCloseCall handle])
    else (Except.error (Error.dbus "proxy creation failed"), [])
  | .logind _ => (Except.ok (), [])

/-- struct Inner in src/linux.rs (renamed here to avoid a library name). -/
structure LinuxInner where
  lock : Option Backend
  active : Bool
deriving DecidableEq

/-- pub fn is_supported in src/linux.rs:
Connection::session().is_ok() || Connection::system().is_ok(). -/
def Linux.is_supported (env : LinuxEnv) : Bool :=
  env.sessionOk || env.systemOk

/-- pub fn acquire in src/linux.rs: resolve the option defaults, then delegate
to PlatformWakeLock::acquire and wrap the lock with an active flag. -/
def Linux.acquire (env : LinuxEnv) (reason : String) (linux : LinuxOptions) :
    Except Error LinuxInner × List MethodCall :=
  let application_id := linux.application_id.getD "screen_wake_lock"
  let effective_reason := linux.reason.getD reason
  let r := PlatformWakeLock.acquire env application_id effective_reason
  (r.fst.map (fun lock => { lock := some lock, active := true }), r.snd)

/-- pub fn release in src/linux.rs: early return when not active; otherwise
take the lock, call its release discarding any error, and clear the flag. -/
def Linux.release (proxyOk : Bool) (inner : LinuxInner) : LinuxInner × List MethodCall :=
  if inner.active = false then (inner, [])
  else
    match inner.lock with
    | some lock =>
      ({ lock := none, active := false }, (PlatformWakeLock.release proxyOk lock).snd)
    | none => ({ lock := none, active := false }, [])

/-! ## Spec-side characterisation of the Linux priority order -/

/-- Priority index of the mechanism a backend value records (1 highest). -/
def mechIndex : Backend → Nat
  | .gnomeSession _ => 1
  | .fdoScreenSaver _ => 2
  | .fdoPowerManagement _ => 3
  | .xdgPortal _ => 4
  | .logind _ => 5

/-- Whether mechanism i would succeed in the given environment (mechanisms
1 to 4 need the session bus, mechanism 5 needs the system bus). -/
def mechSucceeds (env : LinuxEnv) : Nat → Bool
  | 1 => env.sessionOk && env.gnomeCookie.isSome
  | 2 => env.sessionOk && env.screensaverCookie.isSome
  | 3 => env.sessionOk && env.powerManagementCookie.isSome
  | 4 => env.sessionOk && env.portalHandle.isSome
  | 5 => env.systemOk && env.logindFd.isSome
  | _ => false

/-- Modelled from the spec: pure first-match over the fixed priority list
1..5 - the index of the first mechanism that succeeds, if any. -/
def specFirstMech (env : LinuxEnv) : Option Nat :=
  ([1, 2, 3, 4, 5].filter (fun i => mechSucceeds env i)).head?

/-- Which mechanism a given remote call belongs to, by destination service. -/
def callMech (c : MethodCall) : Nat :=
  if c.destination = "org.gnome.SessionManager" then 1
  else if c.destination = "org.freedesktop.ScreenSaver" then 2
  else if c.destination = "org.freedesktop.PowerManagement" then 3
  else if c.destination = "org.freedesktop.portal.Desktop" then 4
  else 5

/-- The token carried by a returned backend is exactly the token the
environment said the winning mechanism would return. -/
def backendMatchesEnv (env : LinuxEnv) : Backend → Bool
  | .gnomeSession cookie => env.gnomeCookie == some cookie
  | .fdoScreenSaver cookie => env.screensaverCookie == some cookie
  | .fdoPowerManagement cookie => env.powerManagementCookie == some cookie
  | .xdgPortal handle => env.portalHandle == some handle
  | .logind fd => env.logindFd == some fd

/-! ## macOS backend (src/macos.rs) -/

def ASSERTION_TYPE_NO_DISPLAY_SLEEP : String := "NoDisplaySleepAssertion"

/-- IOKit constant: kIOPMAssertionLevelOn. -/
def kIOPMAssertionLevelOn : Nat := 255

/-- IOKit constant: kIOReturnSuccess. -/
def kIOReturnSuccess : Int := 0

inductive MacCall where
  | assertionCreate (assertionType : String) (level : Nat) (name : String)
  | assertionRelease (id : Nat)
deriving DecidableEq

/-- Environment oracle for the macOS backend: the IOReturn status of
IOPMAssertionCreateWithName and the assertion id it would write. -/
structure MacEnv where
  rc : Int
  assignedId : Nat
deriving DecidableEq

/-- struct Inner in src/macos.rs (renamed here to avoid a library name). -/
structure MacosInner where
  id : Nat
  active : Bool
deriving DecidableEq

/-- pub fn is_supported in src/macos.rs. -/
def Macos.is_supported : Bool := true

/-- pub fn acquire in src/macos.rs: one IOPMAssertionCreateWithName call with
the NoDisplaySleepAssertion type at level on, named by the reason; any status
other than kIOReturnSuccess becomes Error::Os. -/
def Macos.acquire (env : MacEnv) (reason : String) (_linux : LinuxOptions) :
    Except Error MacosInner × List MacCall :=
  let call := MacCall.assertionCreate ASSERTION_TYPE_NO_DISPLAY_SLEEP
    kIOPMAssertionLevelOn reason
  if env.rc ≠ kIOReturnSuccess then
    (Except.error (Error.os
      ("IOPMAssertionCreateWithName failed (IOReturn=" ++ toString env.rc ++ ")")),
     [call])
  else
    (Except.ok { id := env.assignedId, active := true }, [call])

/-- pub fn release in src/macos.rs: early return when not active; otherwise
one IOPMAssertionRelease by id, result discarded, and clear the flag. -/
def Macos.release (inner : MacosInner) : MacosInner × List MacCall :=
  if inner.active = false then (inner, [])
  else ({ inner with active := false }, [MacCall.assertionRelease inner.id])

/-! ## Windows backend (src/windows.rs) -/

def POWER_REQUEST_DISPLAY_REQUIRED : Nat := 0
def POWER_REQUEST_SYSTEM_REQUIRED : Nat := 1

/-- UTF-16 code units of one char (surrogate pair above U+FFFF). -/
def charUtf16 (c : Char) : List Nat :=
  let v := c.toNat
  if v < 0x10000 then [v]
  else [0xD800 + (v - 0x10000) / 0x400, 0xDC00 + (v - 0x10000) % 0x400]

/-- encode_utf16 over the chars of a string. -/
def encodeUtf16 (s : String) : List Nat :=
  (s.data.map charUtf16).flatten

inductive WinCall where
  | powerCreateRequest (reasonWide : List Nat)
  | powerSetRequest (handle : Nat) (requestType : Nat)
  | powerClearRequest (handle : Nat) (requestType : Nat)
  | closeHandle (handle : Nat)
deriving DecidableEq

/-- Environment oracle for the Windows backend: the handle PowerCreateRequest
would return (none = failure), and whether each PowerSetRequest call and the
final CloseHandle succeed. -/
structure WinEnv where
  createResult : Option Nat
  setSystemOk : Bool
  setDisplayOk : Bool
  closeOk : Bool
deriving DecidableEq

/-- struct PlatformWakeLock in src/windows.rs: the request handle plus the
wide reason buffer kept alive alongside it. -/
structure WinLock where
  handle : Nat
  reason_wide : List Nat
deriving DecidableEq

/-- PlatformWakeLock::acquire in src/windows.rs: build the null-terminated
wide reason, create the power request, then set SYSTEM_REQUIRED followed by
DISPLAY_REQUIRED; if either set fails the handle is closed before the error
is returned. -/
def Windows.acquire (env : WinEnv) (reason : String) :
    Except Error WinLock × List WinCall :=
  let reason_wide := encodeUtf16 reason ++ [0]
  match env.createResult with
  | none => (Except.error (Error.os "PowerCreateRequest failed"),
      [WinCall.powerCreateRequest reason_wide])
  | some handle =>
    if env.setSystemOk then
      if env.setDisplayOk then
        (Except.ok { handle := handle, reason_wide := reason_wide },
         [WinCall.powerCreateRequest reason_wide,
          WinCall.powerSetRequest handle POWER_REQUEST_SYSTEM_REQUIRED,
          WinCall.powerSetRequest handle POWER_REQUEST_DISPLAY_REQUIRED])
      else
        (Except.error (Error.os "PowerSetRequest failed"),
         [WinCall.powerCreateRequest reason_wide,
          WinCall.powerSetRequest handle POWER_REQUEST_SYSTEM_REQUIRED,
          WinCall.powerSetRequest handle POWER_REQUEST_DISPLAY_REQUIRED,
          WinCall.closeHandle handle])
    else
      (Except.error (Error.os "PowerSetRequest failed"),
       [WinCall.powerCreateRequest reason_wide,
        WinCall.powerSetRequest handle POWER_REQUEST_SYSTEM_REQUIRED,
        WinCall.closeHandle handle])

/-- PlatformWakeLock::release in src/windows.rs: clear DISPLAY_REQUIRED then
SYSTEM_REQUIRED (results discarded), then CloseHandle, whose failure is the
only reported error. -/
def Windows.release (env : WinEnv) (lock : WinLock) :
    Except Error Unit × List WinCall :=
  let tr := [WinCall.powerClearRequest lock.handle POWER_REQUEST_DISPLAY_REQUIRED,
             WinCall.powerClearRequest lock.handle POWER_REQUEST_SYSTEM_REQUIRED,
             WinCall.closeHandle lock.handle]
  if env.closeOk then (Except.ok (), tr)
  else (Except.error (Error.os "CloseHandle failed"), tr)

/-! ## Guard facade (src/lib.rs), as compiled for the Linux backend -/

/-- struct ScreenWakeLock in src/lib.rs. -/
structure ScreenWakeLock where
  inner : LinuxInner
deriving DecidableEq

/-- ScreenWakeLock::acquire_with_linux_options in src/lib.rs. -/
def ScreenWakeLock.acquire_with_linux_options (env : LinuxEnv) (reason : String)
    (linux : LinuxOptions) : Except Error ScreenWakeLock × List MethodCall :=
  let r := Linux.acquire env reason linux
  (r.fst.map (fun inner => { inner := inner }), r.snd)

/-- ScreenWakeLock::acquire in src/lib.rs: delegates with default options. -/
def ScreenWakeLock.acquire (env : LinuxEnv) (reason : String) :
    Except Error ScreenWakeLock × List MethodCall :=
  ScreenWakeLock.acquire_with_linux_options env reason LinuxOptions.default

/-- impl Drop for ScreenWakeLock in src/lib.rs: calls sys::release on inner. -/
def ScreenWakeLock.drop (proxyOk : Bool) (g : ScreenWakeLock) :
    ScreenWakeLock × List MethodCall :=
  let r := Linux.release proxyOk g.inner
  ({ inner := r.fst }, r.snd)

/-- ScreenWakeLock::release in src/lib.rs: defined as drop(self). -/
def ScreenWakeLock.release (proxyOk : Bool) (g : ScreenWakeLock) :
    ScreenWakeLock × List MethodCall :=
  ScreenWakeLock.drop proxyOk g

/-! ## Theorems -/

set_option maxHeartbeats 3200000 in
/-- C1: Linux acquire is pure first-match over the fixed priority order
gnome session-manager, freedesktop screen-saver, freedesktop
power-management, desktop portal, logind: a success records the first
succeeding mechanism and carries its token, no call to a lower-priority
mechanism is issued once one succeeds, only system-bus calls happen when the
session bus did not open, and the result is UnsupportedError exactly when no
mechanism succeeds. -/
theorem c1_linux_priority (env : LinuxEnv) (application_id reason : String) :
    (∀ b, (PlatformWakeLock.acquire env application_id reason).fst = Except.ok b →
      specFirstMech env = some (mechIndex b) ∧
      backendMatchesEnv env b = true ∧
      ∀ c ∈ (PlatformWakeLock.acquire env application_id reason).snd,
        callMech c ≤ mechIndex b) ∧
    (env.sessionOk = false →
      ∀ c ∈ (PlatformWakeLock.acquire env application_id reason).snd,
        c.bus = BusKind.system) ∧
    (specFirstMech env = none ↔
      (PlatformWakeLock.acquire env application_id reason).fst =
        Except.error (Error.unsupported "no suitable Linux inhibition backend found")) := by
  rcases env with ⟨so, syo, g, s, pm, x, l⟩
  cases so <;> cases syo <;> cases g <;> cases s <;> cases pm <;> cases x <;> cases l <;>
    simp [PlatformWakeLock.acquire, acquireSessionMechanisms, try_gnome_session,
      try_fdo_screensaver, try_fdo_powermanagement, try_xdg_portal, try_logind,
      specFirstMech, mechSucceeds, mechIndex, callMech, backendMatchesEnv,
      gnomeInhibitCall, fdoScreenSaverInhibitCall, fdoPowerManagementInhibitCall,
      portalInhibitCall, logindInhibitCall]

/-- C1 witness: with the screen-saver mechanism the first to succeed, acquire
returns its backend and token. -/
theorem c1_witness :
    specFirstMech ⟨true, true, none, some 9, none, none, some 2⟩ = some 2 ∧
    backendMatchesEnv ⟨true, true, none, some 9, none, none, some 2⟩
      (Backend.fdoScreenSaver 9) = true :=
  ⟨((c1_linux_priority ⟨true, true, none, some 9, none, none, some 2⟩ "app" "r").1
      (Backend.fdoScreenSaver 9) rfl).1,
   ((c1_linux_priority ⟨true, true, none, some 9, none, none, some 2⟩ "app" "r").1
      (Backend.fdoScreenSaver 9) rfl).2.1⟩

/-- C2: for every guard obtained from a successful acquire, release is
idempotent: the first release performs the backend release and clears the
active flag, and any further release leaves the state unchanged and issues
no backend call (shown for the Linux and macOS backends). -/
theorem c2_release_idempotent (env : LinuxEnv) (reason : String)
    (linux : LinuxOptions) (inner : LinuxInner) (p q : Bool)
    (menv : MacEnv) (mreason : String) (mlinux : LinuxOptions) (minner : MacosInner)
    (h : (Linux.acquire env reason linux).fst = Except.ok inner)
    (hm : (Macos.acquire menv mreason mlinux).fst = Except.ok minner) :
    ((Linux.release p inner).fst.active = false ∧
     (Linux.release p inner).fst.lock = none ∧
     (∃ lock, inner.lock = some lock ∧
        (Linux.release p inner).snd = (PlatformWakeLock.release p lock).snd) ∧
     Linux.release q (Linux.release p inner).fst = ((Linux.release p inner).fst, [])) ∧
    ((Macos.release minner).fst.active = false ∧
     (Macos.release minner).snd = [MacCall.assertionRelease minner.id] ∧
     Macos.release (Macos.release minner).fst = ((Macos.release minner).fst, [])) := by
  simp only [Linux.acquire] at h
  have hinner : ∃ lock, inner = { lock := some lock, active := true } := by
    rcases hx : (PlatformWakeLock.acquire env
        (linux.application_id.getD "screen_wake_lock")
        (linux.reason.getD reason)).fst with e | b
    · rw [hx] at h; simp [Except.map] at h
    · rw [hx] at h; simp [Except.map] at h; exact ⟨b, h.symm⟩
  have hminner : minner = { id := menv.assignedId, active := true } := by
    by_cases hrc : menv.rc = kIOReturnSuccess
    · simp [Macos.acquire, hrc] at hm; exact hm.symm
    · simp [Macos.acquire, hrc] at hm
  rcases hinner with ⟨lock, rfl⟩
  subst hminner
  refine ⟨⟨rfl, rfl, ⟨lock, rfl, rfl⟩, rfl⟩, rfl, rfl, rfl⟩

/-- C2 witness: a gnome-session guard and a macOS guard, both freshly
acquired, released twice. -/
theorem c2_witness :
    (Linux.release true ⟨some (Backend.gnomeSession 5), true⟩).fst.active = false :=
  (c2_release_idempotent ⟨true, false, some 5, none, none, none, none⟩ "r"
    ⟨none, none⟩ ⟨some (Backend.gnomeSession 5), true⟩ true true
    ⟨0, 7⟩ "m" ⟨none, none⟩ ⟨7, true⟩ rfl rfl).1.1

/-- C3: every value of the public error type falls under one of the two spec
failure kinds, the two kinds are distinct, and every failure of a modelled
backend acquire is so classified. -/
theorem c3_error_taxonomy :
    (∀ e : Error, specErrorKindOf e = SpecErrorKind.platformError ∨
      specErrorKindOf e = SpecErrorKind.unsupportedError) ∧
    SpecErrorKind.platformError ≠ SpecErrorKind.unsupportedError ∧
    (∀ env application_id reason e,
      (PlatformWakeLock.acquire env application_id reason).fst = Except.error e →
        specErrorKindOf e = SpecErrorKind.platformError ∨
        specErrorKindOf e = SpecErrorKind.unsupportedError) ∧
    (∀ env reason linux e, (Macos.acquire env reason linux).fst = Except.error e →
        specErrorKindOf e = SpecErrorKind.platformError ∨
        specErrorKindOf e = SpecErrorKind.unsupportedError) ∧
    (∀ env reason e, (Windows.acquire env reason).fst = Except.error e →
        specErrorKindOf e = SpecErrorKind.platformError ∨
        specErrorKindOf e = SpecErrorKind.unsupportedError) := by
  have h : ∀ e : Error, specErrorKindOf e = SpecErrorKind.platformError ∨
      specErrorKindOf e = SpecErrorKind.unsupportedError := by
    intro e; cases e <;> simp [specErrorKindOf]
  exact ⟨h, by decide, fun _ _ _ e _ => h e, fun _ _ _ e _ => h e, fun _ _ e _ => h e⟩

/-- C3 witness: the Dbus transport error classifies as the platform kind. -/
theorem c3_witness :
    specErrorKindOf (Error.dbus "x") = SpecErrorKind.platformError ∨
    specErrorKindOf (Error.dbus "x") = SpecErrorKind.unsupportedError :=
  c3_error_taxonomy.1 (Error.dbus "x")

/-- C4: Linux is_supported is true iff a session or a system connection can
be opened, a false result guarantees neither opened, and a true result does
not guarantee that acquire succeeds. -/
theorem c4_is_supported (env : LinuxEnv) :
    (Linux.is_supported env = true ↔ (env.sessionOk = true ∨ env.systemOk = true)) ∧
    (Linux.is_supported env = false → env.sessionOk = false ∧ env.systemOk = false) ∧
    (∃ e : LinuxEnv, ∃ application_id reason : String,
      Linux.is_supported e = true ∧
      (PlatformWakeLock.acquire e application_id reason).fst =
        Except.error (Error.unsupported "no suitable Linux inhibition backend found")) := by
  refine ⟨?_, ?_, ?_⟩
  · simp [Linux.is_supported]
  · intro h
    rcases env with ⟨so, syo, g, s, pm, x, l⟩
    cases so <;> cases syo <;> simp_all [Linux.is_supported]
  · exact ⟨⟨true, false, none, none, none, none, none⟩, "a", "r", rfl, rfl⟩

/-- C4 witness: an environment with no connection at all reports false, hence
neither connection opened. -/
theorem c4_witness :
    LinuxEnv.sessionOk ⟨false, false, none, none, none, none, none⟩ = false ∧
    LinuxEnv.systemOk ⟨false, false, none, none, none, none, none⟩ = false :=
  (c4_is_supported ⟨false, false, none, none, none, none, none⟩).2.1 rfl

/-- C5: the logind fallback runs on the system bus and issues an Inhibit call
with exactly the four fields idle category, application id, reason and block
mode; its success value is the fd the environment returns, and releasing a
logind backend issues no remote undo call. -/
theorem c5_logind (env : LinuxEnv) (application_id reason : String) (fd : Nat)
    (proxyOk : Bool) (h : env.systemOk = true) :
    (try_logind env application_id reason).fst = env.logindFd ∧
    (try_logind env application_id reason).snd =
      [logindInhibitCall application_id reason] ∧
    (logindInhibitCall application_id reason).bus = BusKind.system ∧
    (logindInhibitCall application_id reason).args =
      [DBusValue.str "idle", DBusValue.str application_id,
       DBusValue.str reason, DBusValue.str "block"] ∧
    PlatformWakeLock.release proxyOk (Backend.logind fd) = (Except.ok (), []) := by
  simp [try_logind, h, logindInhibitCall, PlatformWakeLock.release]

/-- C5 witness: a headless environment where only the system bus opens. -/
theorem c5_witness :
    (try_logind ⟨false, true, none, none, none, none, some 4⟩ "app" "demo").snd =
      [logindInhibitCall "app" "demo"] :=
  (c5_logind ⟨false, true, none, none, none, none, some 4⟩ "app" "demo" 4 true rfl).2.1

/-- C6: on Windows, once the power request was created, a failure of either
PowerSetRequest makes acquire return a platform error with the handle closed
exactly once in the issued calls; on full success the calls are create, set
system-required, set display-required, with no close. -/
theorem c6_windows_close_once (env : WinEnv) (reason : String) (handle : Nat)
    (hc : env.createResult = some handle) :
    ((env.setSystemOk = false ∨ env.setDisplayOk = false) →
      (∃ msg, (Windows.acquire env reason).fst = Except.error (Error.os msg)) ∧
      (Windows.acquire env reason).snd.count (WinCall.closeHandle handle) = 1) ∧
    (env.setSystemOk = true → env.setDisplayOk = true →
      (Windows.acquire env reason).snd =
        [WinCall.powerCreateRequest (encodeUtf16 reason ++ [0]),
         WinCall.powerSetRequest handle POWER_REQUEST_SYSTEM_REQUIRED,
         WinCall.powerSetRequest handle POWER_REQUEST_DISPLAY_REQUIRED] ∧
      (Windows.acquire env reason).snd.count (WinCall.closeHandle handle) = 0) := by
  rcases env with ⟨cr, ss, sd, co⟩
  cases hc
  cases ss <;> cases sd <;>
    simp [Windows.acquire, List.count_cons, List.count_nil]

/-- C6 witness: the second paired flag fails to set, the handle is closed
exactly once. -/
theorem c6_witness :
    (Windows.acquire ⟨some 11, true, false, true⟩ "demo").snd.count
      (WinCall.closeHandle 11) = 1 :=
  ((c6_windows_close_once ⟨some 11, true, false, true⟩ "demo" 11 rfl).1
    (Or.inr rfl)).2

/-- C7: macOS acquire fails exactly when the creation status differs from
kIOReturnSuccess, the failure classifies as the platform kind, and on success
the handle carries the assigned assertion id with the active flag set. -/
theorem c7_macos_acquire (env : MacEnv) (reason : String) (linux : LinuxOptions) :
    ((Macos.acquire env reason linux).fst.isOk = false ↔ env.rc ≠ kIOReturnSuccess) ∧
    (env.rc = kIOReturnSuccess →
      (Macos.acquire env reason linux).fst =
        Except.ok { id := env.assignedId, active := true }) ∧
    (env.rc ≠ kIOReturnSuccess →
      (Macos.acquire env reason linux).fst =
        Except.error (Error.os
          ("IOPMAssertionCreateWithName failed (IOReturn=" ++ toString env.rc ++ ")"))) ∧
    (∀ e, (Macos.acquire env reason linux).fst = Except.error e →
      specErrorKindOf e = SpecErrorKind.platformError) := by
  by_cases h : env.rc = kIOReturnSuccess <;>
    simp [Macos.acquire, h, Except.isOk, Except.toBool, specErrorKindOf]

/-- C7 witness: status 0 is the success code, the guard holds the id. -/
theorem c7_witness :
    (Macos.acquire ⟨0, 7⟩ "demo" ⟨none, none⟩).fst = Except.ok ⟨7, true⟩ :=
  (c7_macos_acquire ⟨0, 7⟩ "demo" ⟨none, none⟩).2.1 rfl

/-- C8: a missing application id defaults to the library constant
screen_wake_lock, a missing override reason defaults to the reason the caller
gave, and acquire(reason) equals acquire_with_linux_options(reason,
defaults). -/
theorem c8_option_defaults (env : LinuxEnv) (reason : String) (linux : LinuxOptions) :
    ScreenWakeLock.acquire env reason =
      ScreenWakeLock.acquire_with_linux_options env reason LinuxOptions.default ∧
    (linux.application_id = none →
      Linux.acquire env reason linux =
        Linux.acquire env reason
          { linux with application_id := some "screen_wake_lock" }) ∧
    (linux.reason = none →
      Linux.acquire env reason linux =
        Linux.acquire env reason { linux with reason := some reason }) := by
  refine ⟨rfl, ?_, ?_⟩ <;> rcases linux with ⟨a, r⟩ <;> intro h <;> subst h <;> rfl

/-- C8 witness: omitting the application id behaves as passing the library
constant explicitly. -/
theorem c8_witness :
    Linux.acquire ⟨true, true, some 1, none, none, none, none⟩ "r" ⟨none, some "x"⟩ =
      Linux.acquire ⟨true, true, some 1, none, none, none, none⟩ "r"
        ⟨some "screen_wake_lock", some "x"⟩ :=
  (c8_option_defaults ⟨true, true, some 1, none, none, none, none⟩ "r"
    ⟨none, some "x"⟩).2.1 rfl

/-- C9: the facade release path surfaces no error: the post-drop state does
not depend on whether the backend release fails, a second drop is a no-op
issuing no backend call, and an inactive guard is dropped without any backend
call. -/
theorem c9_release_best_effort (g : ScreenWakeLock) (p q r : Bool) :
    (ScreenWakeLock.drop p g).fst = (ScreenWakeLock.drop q g).fst ∧
    ScreenWakeLock.drop r (ScreenWakeLock.drop p g).fst =
      ((ScreenWakeLock.drop p g).fst, []) ∧
    (g.inner.active = false → ScreenWakeLock.drop p g = (g, [])) := by
  rcases g with ⟨⟨lk, a⟩⟩
  cases a <;> cases lk <;>
    simp [ScreenWakeLock.drop, Linux.release]

/-- C9 witness: dropping an already-inactive guard touches nothing. -/
theorem c9_witness :
    ScreenWakeLock.drop true ⟨⟨some (Backend.gnomeSession 1), false⟩⟩ =
      (⟨⟨some (Backend.gnomeSession 1), false⟩⟩, []) :=
  (c9_release_best_effort ⟨⟨some (Backend.gnomeSession 1), false⟩⟩ true true true).2.2 rfl

/-- C10: explicit release and end-of-scope drop are the same operation - for
every proxy outcome and guard they produce identical state and calls. -/
theorem c10_release_is_drop (proxyOk : Bool) (g : ScreenWakeLock) :
    ScreenWakeLock.release proxyOk g = ScreenWakeLock.drop proxyOk g := rfl
